import Mathlib

/-!
Shallow embedding of the Lucid task/pomodoro application (src/index.tsx) and a
verification of its specification claims.

Conventions: JavaScript numbers that hold integer values are modelled as `Int`
(`timeLeft`, settings fields, `cycleCount`) or as `Nat` where the code only ever
produces non-negative values (`id` from `Date.now()`); the JS `%` operator on
integers is `Int.tmod` (truncating remainder, the sign of the dividend).
React state updates become explicit state-passing functions.
-/

/-- The timer mode union type 'work' | 'shortBreak' | 'longBreak' (src line 34). -/
inductive TimerMode where
  | work
  | shortBreak
  | longBreak
deriving DecidableEq

/-- PomodoroSettings (src lines 24-29). -/
structure PomodoroSettings where
  work : Int
  shortBreak : Int
  longBreak : Int
  cycles : Int
deriving DecidableEq

/-- DEFAULT_SETTINGS (src lines 41-46). -/
def DEFAULT_SETTINGS : PomodoroSettings :=
  { work := 25, shortBreak := 5, longBreak := 15, cycles := 4 }

/-- ActiveTimer (src lines 31-37). -/
structure ActiveTimer where
  taskId : Nat
  timeLeft : Int
  mode : TimerMode
  cycleCount : Int
  isPaused : Bool
deriving DecidableEq

/-- transitionToNextMode (src lines 83-110).  The object spreads
`{ ...currentTimer, ... }` copy every field not listed, in particular
`isPaused` is carried over unchanged. -/
def transitionToNextMode (s : PomodoroSettings) (t : ActiveTimer) : ActiveTimer :=
  if t.mode = TimerMode.work then
    let newCycleCount := t.cycleCount + 1
    if Int.tmod newCycleCount s.cycles = 0 then
      { t with mode := TimerMode.longBreak, timeLeft := s.longBreak * 60,
               cycleCount := newCycleCount }
    else
      { t with mode := TimerMode.shortBreak, timeLeft := s.shortBreak * 60,
               cycleCount := newCycleCount }
  else
    { t with mode := TimerMode.work, timeLeft := s.work * 60 }

/-- The per-second timer effect (src lines 64-81): it does nothing when no timer
exists or the timer is paused (the effect returns before installing the
interval); otherwise it decrements `timeLeft` while `timeLeft > 1` and performs
the mode transition on the tick taken from `timeLeft ≤ 1`. -/
def tick (s : PomodoroSettings) (timer : Option ActiveTimer) : Option ActiveTimer :=
  match timer with
  | none => none
  | some t =>
    if t.isPaused then some t
    else if t.timeLeft > 1 then some { t with timeLeft := t.timeLeft - 1 }
    else some (transitionToNextMode s t)

/-- handleStartTimer (src lines 112-120): unconditionally installs a fresh
timer, ignoring any timer that is already running. -/
def handleStartTimer (s : PomodoroSettings) (taskId : Nat)
    (_timer : Option ActiveTimer) : Option ActiveTimer :=
  some { taskId := taskId, timeLeft := s.work * 60, mode := TimerMode.work,
         cycleCount := 0, isPaused := false }

/-- The Start Timer button as rendered (src lines 484-490): its onClick calls
handleStartTimer but the button carries `disabled={!!activeTimer}`, so the
click is only possible when no timer is active. -/
def startTimerButton (s : PomodoroSettings) (taskId : Nat)
    (timer : Option ActiveTimer) : Option ActiveTimer :=
  match timer with
  | some t => some t
  | none => handleStartTimer s taskId none

/-- handlePauseResumeTimer (src lines 122-124). -/
def handlePauseResumeTimer (timer : Option ActiveTimer) : Option ActiveTimer :=
  match timer with
  | some t => some { t with isPaused := !t.isPaused }
  | none => none

/-- handleSkip (src lines 126-130): transitions whenever a timer exists,
paused or not. -/
def handleSkip (s : PomodoroSettings) (timer : Option ActiveTimer) : Option ActiveTimer :=
  match timer with
  | some t => some (transitionToNextMode s t)
  | none => none

/-- handleResetTimer (src lines 132-134). -/
def handleResetTimer (_timer : Option ActiveTimer) : Option ActiveTimer := none

/-- The value accumulated by JS parseInt over the leading decimal digits. -/
def leadingDigitsVal (cs : List Char) : Nat :=
  (cs.takeWhile Char.isDigit).foldl (fun acc c => 10 * acc + (c.toNat - 48)) 0

/-- JS `parseInt(value, 10)`: skip leading whitespace, optional sign, then the
longest prefix of decimal digits; NaN (here `none`) when that prefix is empty. -/
def parseIntTen (value : String) : Option Int :=
  match value.toList.dropWhile Char.isWhitespace with
  | '-' :: rest =>
    if (rest.takeWhile Char.isDigit).isEmpty then none
    else some (-(Int.ofNat (leadingDigitsVal rest)))
  | '+' :: rest =>
    if (rest.takeWhile Char.isDigit).isEmpty then none
    else some (Int.ofNat (leadingDigitsVal rest))
  | rest =>
    if (rest.takeWhile Char.isDigit).isEmpty then none
    else some (Int.ofNat (leadingDigitsVal rest))

/-- The four keys of PomodoroSettings. -/
inductive SettingsField where
  | work
  | shortBreak
  | longBreak
  | cycles
deriving DecidableEq

/-- The computed-key update `{ ...prev, [field]: numValue }`. -/
def setField (s : PomodoroSettings) (f : SettingsField) (v : Int) : PomodoroSettings :=
  match f with
  | SettingsField.work => { s with work := v }
  | SettingsField.shortBreak => { s with shortBreak := v }
  | SettingsField.longBreak => { s with longBreak := v }
  | SettingsField.cycles => { s with cycles := v }

/-- Field projection, for stating which settings an update touches. -/
def getField (s : PomodoroSettings) (f : SettingsField) : Int :=
  match f with
  | SettingsField.work => s.work
  | SettingsField.shortBreak => s.shortBreak
  | SettingsField.longBreak => s.longBreak
  | SettingsField.cycles => s.cycles

/-- handleSettingsChange (src lines 136-141). -/
def handleSettingsChange (s : PomodoroSettings) (f : SettingsField)
    (value : String) : PomodoroSettings :=
  match parseIntTen value with
  | some n => if n > 0 then setField s f n else s
  | none => s

/-- The timer-facing user operations available while a timer may be running. -/
inductive TimerOp where
  | tick
  | pauseResume
  | skip
deriving DecidableEq

/-- Dispatch one timer operation. -/
def applyTimerOp (s : PomodoroSettings) (op : TimerOp)
    (timer : Option ActiveTimer) : Option ActiveTimer :=
  match op with
  | TimerOp.tick => tick s timer
  | TimerOp.pauseResume => handlePauseResumeTimer timer
  | TimerOp.skip => handleSkip s timer

/-- Run a sequence of timer operations. -/
def runTimerOps (s : PomodoroSettings) (ops : List TimerOp)
    (timer : Option ActiveTimer) : Option ActiveTimer :=
  ops.foldl (fun tm op => applyTimerOp s op tm) timer

/-- Task priority union 'High' | 'Medium' | 'Low' (src line 19). -/
inductive Priority where
  | High
  | Medium
  | Low
deriving DecidableEq

/-- Task status union 'active' | 'completed' (src line 20). -/
inductive TaskStatus where
  | active
  | completed
deriving DecidableEq

/-- Task source union 'lucid' | 'google' (src line 21). -/
inductive TaskSource where
  | lucid
  | google
deriving DecidableEq

/-- The parsed content of a date string "Month Day, Year" as produced by
`toLocaleDateString('en-US', { month: 'long', day: 'numeric', year: 'numeric' })`
and consumed by `new Date(...)`; the string is modelled by its three fields. -/
structure DateText where
  month : String
  day : Nat
  year : Nat
deriving DecidableEq

/-- The parsed content of a time string "H:MM AM/PM" as produced by
`toLocaleTimeString('en-US', { hour: 'numeric', minute: '2-digit', hour12: true })`
and consumed by `new Date(...)`; the string is modelled by its three fields. -/
structure TimeText where
  hour12 : Nat
  minute : Nat
  ampm : String
deriving DecidableEq

/-- ParsedTask (src lines 13-22). -/
structure ParsedTask where
  id : Nat
  taskName : String
  date : DateText
  time : Option TimeText
  category : String
  priority : Priority
  status : TaskStatus
  source : TaskSource
deriving DecidableEq

/-- The priorityOrder lookup table { High: 1, Medium: 2, Low: 3 } (src line 314). -/
def priorityOrder (p : Priority) : Nat :=
  match p with
  | Priority.High => 1
  | Priority.Medium => 2
  | Priority.Low => 3

/-- activeTasks (src line 311). -/
def activeTasks (tasks : List ParsedTask) : List ParsedTask :=
  tasks.filter (fun t => t.status == TaskStatus.active)

/-- completedTasks (src line 312). -/
def completedTasksOf (tasks : List ParsedTask) : List ParsedTask :=
  tasks.filter (fun t => t.status == TaskStatus.completed)

/-- The comparator `(a, b) => priorityOrder[a.priority] - priorityOrder[b.priority]`
(src line 315) as the boolean order it induces on tasks. -/
def priorityLE (a b : ParsedTask) : Bool :=
  Nat.ble (priorityOrder a.priority) (priorityOrder b.priority)

/-- sortedActiveTasks (src line 315): `[...activeTasks].sort(cmp)`.
Array.prototype.sort is stable (ES2019), so it is embedded as a stable merge
sort under the comparator's order. -/
def sortedActiveTasks (tasks : List ParsedTask) : List ParsedTask :=
  (activeTasks tasks).mergeSort priorityLE

/-- The accepted parse result `Omit<ParsedTask, 'id' | 'status' | 'source'>`
(src line 50). -/
structure Candidate where
  taskName : String
  date : DateText
  time : Option TimeText
  category : String
  priority : Priority
deriving DecidableEq

/-- handleAccept (src lines 212-219): inserts the candidate with
`id: Date.now()`; `now` is the clock value at the call. -/
def handleAccept (now : Nat) (c : Candidate) (tasks : List ParsedTask) : List ParsedTask :=
  tasks ++ [{ id := now, taskName := c.taskName, date := c.date, time := c.time,
              category := c.category, priority := c.priority,
              status := TaskStatus.active, source := TaskSource.lucid }]

/-- handleSyncNow (src lines 280-309): drops all google-source tasks and
appends the two mock events with ids `Date.now()` and `Date.now() + 1`;
`now` is the clock value, `today`/`tomorrow` the formatted dates. -/
def handleSyncNow (now : Nat) (today tomorrow : DateText)
    (tasks : List ParsedTask) : List ParsedTask :=
  tasks.filter (fun t => t.source != TaskSource.google) ++
    [{ id := now, taskName := "Team Standup", date := today,
       time := some { hour12 := 10, minute := 0, ampm := "AM" },
       category := "Work", priority := Priority.Medium,
       status := TaskStatus.active, source := TaskSource.google },
     { id := now + 1, taskName := "Design Review", date := tomorrow,
       time := some { hour12 := 2, minute := 30, ampm := "PM" },
       category := "Work", priority := Priority.High,
       status := TaskStatus.active, source := TaskSource.google }]

/-- The per-task body of the map in handleToggleComplete (src lines 240-244). -/
def toggleTask (taskId : Nat) (t : ParsedTask) : ParsedTask :=
  if t.id = taskId then
    { t with status := if t.status = TaskStatus.active
                       then TaskStatus.completed else TaskStatus.active }
  else t

/-- handleToggleComplete (src lines 239-248): flips the matching task's status
and clears the timer whenever `activeTimer?.taskId === taskId`, whether or not
such a task exists. -/
def handleToggleComplete (taskId : Nat) (tasks : List ParsedTask)
    (timer : Option ActiveTimer) : List ParsedTask × Option ActiveTimer :=
  (tasks.map (toggleTask taskId),
   match timer with
   | some tm => if tm.taskId = taskId then none else some tm
   | none => none)

/-- handleDisconnectGoogleCalendar (src lines 275-278); it filters the store
but leaves the timer alone. -/
def handleDisconnectGoogleCalendar (tasks : List ParsedTask) : List ParsedTask :=
  tasks.filter (fun t => t.source != TaskSource.google)

/-- The store-mutating user operations relevant to id freshness. -/
inductive StoreOp where
  | accept (c : Candidate)
  | syncNow (today tomorrow : DateText)
  | toggle (taskId : Nat)
  | disconnect
deriving DecidableEq

/-- Dispatch one store operation at clock value `now`. -/
def applyStoreOp (now : Nat) (op : StoreOp) (tasks : List ParsedTask) : List ParsedTask :=
  match op with
  | StoreOp.accept c => handleAccept now c tasks
  | StoreOp.syncNow d1 d2 => handleSyncNow now d1 d2 tasks
  | StoreOp.toggle i => (handleToggleComplete i tasks none).1
  | StoreOp.disconnect => handleDisconnectGoogleCalendar tasks

/-- Run a sequence of store operations, each paired with its clock value. -/
def runStoreOps (ops : List (Nat × StoreOp)) (tasks : List ParsedTask) : List ParsedTask :=
  match ops with
  | [] => tasks
  | (tm, op) :: rest => runStoreOps rest (applyStoreOp tm op tasks)

/-- The clock values of successive operations advance by at least 2 (syncNow
consumes two consecutive ids), starting no earlier than `lo`. -/
def timesSeparated (lo : Nat) (ops : List (Nat × StoreOp)) : Prop :=
  match ops with
  | [] => True
  | (tm, _) :: rest => lo ≤ tm ∧ timesSeparated (tm + 2) rest

instance : ∀ lo ops, Decidable (timesSeparated lo ops) := fun lo ops =>
  match ops with
  | [] => Decidable.isTrue trivial
  | (tm, _) :: rest =>
    @instDecidableAnd (lo ≤ tm) _ _ (instDecidableTimesSeparated (tm + 2) rest)

/-- The en-US long month names used by the date formatting and parsing. -/
def monthNames : List String :=
  ["January", "February", "March", "April", "May", "June",
   "July", "August", "September", "October", "November", "December"]

/-- Gregorian leap year. -/
def isLeapYear (y : Nat) : Bool :=
  (y % 4 == 0 && y % 100 != 0) || y % 400 == 0

/-- Days in month `m` (1-based) of year `y`. -/
def daysInMonth (m y : Nat) : Nat :=
  if m = 2 then (if isLeapYear y then 29 else 28)
  else if m = 4 ∨ m = 6 ∨ m = 9 ∨ m = 11 then 30
  else 31

/-- A point in time at the precision the engine's `Date` values carry here:
calendar fields down to seconds (milliseconds are never non-zero in the
modelled flows). -/
structure Timestamp where
  year : Nat
  month : Nat
  day : Nat
  hour : Nat
  minute : Nat
  second : Nat
deriving DecidableEq

/-- 12-hour clock with AM/PM to 24-hour clock, as `new Date` reads "H:MM AM/PM". -/
def hour24 (tt : TimeText) : Nat :=
  if tt.ampm = "AM" then (if tt.hour12 = 12 then 0 else tt.hour12)
  else (if tt.hour12 = 12 then 12 else tt.hour12 + 12)

/-- The Date construction inside parseTaskDateTime (src lines 317-326):
`new Date(task.time ? task.date + ' ' + task.time : task.date)`, yielding no
result (Invalid Date) when the month name, the day of month, or the time part
is invalid; a date without time part parses to local midnight. -/
def toTimestamp (d : DateText) (t : Option TimeText) : Option Timestamp :=
  match monthNames.findIdx? (fun s => s == d.month) with
  | none => none
  | some mi =>
    if 1 ≤ d.day ∧ d.day ≤ daysInMonth (mi + 1) d.year then
      match t with
      | none => some { year := d.year, month := mi + 1, day := d.day,
                       hour := 0, minute := 0, second := 0 }
      | some tt =>
        if (1 ≤ tt.hour12 ∧ tt.hour12 ≤ 12) ∧ tt.minute ≤ 59 ∧
           (tt.ampm = "AM" ∨ tt.ampm = "PM") then
          some { year := d.year, month := mi + 1, day := d.day,
                 hour := hour24 tt, minute := tt.minute, second := 0 }
        else none
    else none

/-- parseTaskDateTime (src lines 317-326) on a task's stored pair. -/
def parseTaskDateTime (task : ParsedTask) : Option Timestamp :=
  toTimestamp task.date task.time

/-- The 1-based month's en-US long name. -/
def monthName (m : Nat) : String := monthNames.getD (m - 1) ""

/-- The date/time re-derivation inside handleEventDrop (src lines 256-264):
date via `toLocaleDateString('en-US', long month)`, time absent when the drop
is all-day, otherwise via `toLocaleTimeString('en-US', 12-hour)`. -/
def fromTimestamp (ts : Timestamp) (isAllDay : Bool) : DateText × Option TimeText :=
  ({ month := monthName ts.month, day := ts.day, year := ts.year },
   if isAllDay then none
   else some { hour12 := if ts.hour % 12 = 0 then 12 else ts.hour % 12,
               minute := ts.minute,
               ampm := if ts.hour < 12 then "AM" else "PM" })

/-- handleEventDrop (src lines 250-269): rewrites the dropped task's textual
date and time from the new start. -/
def handleEventDrop (taskId : Nat) (newStart : Timestamp) (isAllDay : Bool)
    (tasks : List ParsedTask) : List ParsedTask :=
  tasks.map (fun t =>
    if t.id = taskId then
      { t with date := (fromTimestamp newStart isAllDay).1,
               time := (fromTimestamp newStart isAllDay).2 }
    else t)

/-- Calendar-representable timestamps: fields in range. -/
def ValidTimestamp (ts : Timestamp) : Prop :=
  1 ≤ ts.month ∧ ts.month ≤ 12 ∧ 1 ≤ ts.day ∧ ts.day ≤ daysInMonth ts.month ts.year ∧
  ts.hour ≤ 23 ∧ ts.minute ≤ 59

instance : ∀ ts, Decidable (ValidTimestamp ts) := fun ts => by
  unfold ValidTimestamp; infer_instance

/-- Equality up to minute precision drops the seconds field. -/
def truncToMinute (ts : Timestamp) : Timestamp := { ts with second := 0 }

/-- The calendar date of `ts` at local midnight. -/
def dateAtMidnight (ts : Timestamp) : Timestamp :=
  { ts with hour := 0, minute := 0, second := 0 }

/-! ### Timer lemmas -/

theorem transitionToNextMode_work (s : PomodoroSettings) (t : ActiveTimer)
    (hw : t.mode = TimerMode.work) :
    transitionToNextMode s t =
      if Int.tmod (t.cycleCount + 1) s.cycles = 0 then
        { t with mode := TimerMode.longBreak, timeLeft := s.longBreak * 60,
                 cycleCount := t.cycleCount + 1 }
      else
        { t with mode := TimerMode.shortBreak, timeLeft := s.shortBreak * 60,
                 cycleCount := t.cycleCount + 1 } := by
  simp [transitionToNextMode, hw]

theorem transitionToNextMode_break (s : PomodoroSettings) (t : ActiveTimer)
    (hw : t.mode ≠ TimerMode.work) :
    transitionToNextMode s t = { t with mode := TimerMode.work, timeLeft := s.work * 60 } := by
  simp [transitionToNextMode, hw]

theorem transitionToNextMode_timeLeft_pos (s : PomodoroSettings) (t : ActiveTimer)
    (hw : 0 < s.work) (hsb : 0 < s.shortBreak) (hlb : 0 < s.longBreak) :
    1 ≤ (transitionToNextMode s t).timeLeft := by
  by_cases h : t.mode = TimerMode.work
  · rw [transitionToNextMode_work s t h]
    split <;> simp <;> omega
  · rw [transitionToNextMode_break s t h]
    simp
    omega

theorem transitionToNextMode_isPaused (s : PomodoroSettings) (t : ActiveTimer) :
    (transitionToNextMode s t).isPaused = t.isPaused := by
  by_cases h : t.mode = TimerMode.work
  · rw [transitionToNextMode_work s t h]; split <;> rfl
  · rw [transitionToNextMode_break s t h]

theorem applyTimerOp_timeLeft_pos (s : PomodoroSettings) (op : TimerOp)
    (timer : Option ActiveTimer)
    (hw : 0 < s.work) (hsb : 0 < s.shortBreak) (hlb : 0 < s.longBreak)
    (h : ∀ u, timer = some u → 1 ≤ u.timeLeft) :
    ∀ u, applyTimerOp s op timer = some u → 1 ≤ u.timeLeft := by
  intro u hu
  cases op with
  | tick =>
    cases timer with
    | none => simp [applyTimerOp, tick] at hu
    | some t =>
      simp only [applyTimerOp, tick] at hu
      by_cases hp : t.isPaused
      · simp [hp] at hu; subst hu; exact h t rfl
      · simp [hp] at hu
        by_cases hgt : t.timeLeft > 1
        · rw [if_pos hgt] at hu
          have := h t rfl
          cases hu
          simp
          omega
        · rw [if_neg hgt] at hu
          cases hu
          exact transitionToNextMode_timeLeft_pos s t hw hsb hlb
  | pauseResume =>
    cases timer with
    | none => simp [applyTimerOp, handlePauseResumeTimer] at hu
    | some t =>
      simp only [applyTimerOp, handlePauseResumeTimer] at hu
      cases hu
      exact h t rfl
  | skip =>
    cases timer with
    | none => simp [applyTimerOp, handleSkip] at hu
    | some t =>
      simp only [applyTimerOp, handleSkip] at hu
      cases hu
      exact transitionToNextMode_timeLeft_pos s t hw hsb hlb

theorem runTimerOps_timeLeft_pos (s : PomodoroSettings)
    (hw : 0 < s.work) (hsb : 0 < s.shortBreak) (hlb : 0 < s.longBreak)
    (ops : List TimerOp) :
    ∀ timer, (∀ u, timer = some u → 1 ≤ u.timeLeft) →
      ∀ u, runTimerOps s ops timer = some u → 1 ≤ u.timeLeft := by
  induction ops with
  | nil =>
    intro timer h u hu
    exact h u hu
  | cons op rest ih =>
    intro timer h u hu
    rw [runTimerOps, List.foldl_cons] at hu
    exact ih (applyTimerOp s op timer)
      (applyTimerOp_timeLeft_pos s op timer hw hsb hlb h) u hu

/-! ### Claim C1 -/

/-- A timer already running for task id 1. -/
def timerForTask1 : ActiveTimer :=
  { taskId := 1, timeLeft := 100, mode := TimerMode.work, cycleCount := 2, isPaused := false }

/-- C1 counterexample: with a timer active for task 1, handleStartTimer 2 does
not fail and does not leave the existing timer untouched; it overwrites the
state with a fresh timer for task 2 (no ConflictError exists in the code). -/
theorem handleStartTimer_overwrites_cex :
    handleStartTimer DEFAULT_SETTINGS 2 (some timerForTask1) =
      some { taskId := 2, timeLeft := 1500, mode := TimerMode.work,
             cycleCount := 0, isPaused := false } ∧
    handleStartTimer DEFAULT_SETTINGS 2 (some timerForTask1) ≠ some timerForTask1 := by
  decide

/-- C1 amended: handleStartTimer itself never fails and unconditionally
installs `{taskId, timeLeft = work*60, mode = work, cycleCount = 0,
isPaused = false}`; the one-timer rule is enforced by the UI instead: the
Start Timer button is disabled whenever any timer is active, so the start
operation as reachable through the interface leaves an existing timer's whole
state unchanged (with no error raised), and with no active timer it creates
exactly the fresh state. -/
theorem startTimerButton_spec (s : PomodoroSettings) (b : Nat)
    (timer : Option ActiveTimer) :
    (∀ t, timer = some t → startTimerButton s b timer = some t) ∧
    (timer = none → startTimerButton s b timer =
      some { taskId := b, timeLeft := s.work * 60, mode := TimerMode.work,
             cycleCount := 0, isPaused := false }) := by
  cases timer <;> simp [startTimerButton, handleStartTimer]

/-- C1 witness at concrete inputs. -/
theorem startTimerButton_spec_witness :
    startTimerButton DEFAULT_SETTINGS 2 (some timerForTask1) = some timerForTask1 ∧
    startTimerButton DEFAULT_SETTINGS 2 none =
      some { taskId := 2, timeLeft := DEFAULT_SETTINGS.work * 60, mode := TimerMode.work,
             cycleCount := 0, isPaused := false } :=
  ⟨(startTimerButton_spec DEFAULT_SETTINGS 2 (some timerForTask1)).1 timerForTask1 rfl,
   (startTimerButton_spec DEFAULT_SETTINGS 2 none).2 rfl⟩

/-! ### Claim C2 -/

/-- C2: a transition from work increments cycleCount, chooses longBreak exactly
when the incremented count is divisible by the configured cycles (in particular
on the cyclesPerLongBreak-th completed work interval, and shortBreak on every
earlier one), and loads the chosen mode's duration in seconds; a transition
from either break returns to work with the work duration and the cycle count
unchanged. -/
theorem transitionToNextMode_spec (s : PomodoroSettings) (t : ActiveTimer)
    (_hcy : 0 < s.cycles) :
    (t.mode = TimerMode.work →
      (transitionToNextMode s t).cycleCount = t.cycleCount + 1 ∧
      (Int.tmod (t.cycleCount + 1) s.cycles = 0 →
        (transitionToNextMode s t).mode = TimerMode.longBreak ∧
        (transitionToNextMode s t).timeLeft = s.longBreak * 60) ∧
      (Int.tmod (t.cycleCount + 1) s.cycles ≠ 0 →
        (transitionToNextMode s t).mode = TimerMode.shortBreak ∧
        (transitionToNextMode s t).timeLeft = s.shortBreak * 60) ∧
      (t.cycleCount + 1 = s.cycles →
        (transitionToNextMode s t).mode = TimerMode.longBreak) ∧
      (0 ≤ t.cycleCount → t.cycleCount + 1 < s.cycles →
        (transitionToNextMode s t).mode = TimerMode.shortBreak)) ∧
    (t.mode ≠ TimerMode.work →
      (transitionToNextMode s t).mode = TimerMode.work ∧
      (transitionToNextMode s t).timeLeft = s.work * 60 ∧
      (transitionToNextMode s t).cycleCount = t.cycleCount) := by
  constructor
  · intro hw
    rw [transitionToNextMode_work s t hw]
    by_cases hm : Int.tmod (t.cycleCount + 1) s.cycles = 0
    · rw [if_pos hm]
      refine ⟨rfl, fun _ => ⟨rfl, rfl⟩, fun hne => absurd hm hne, fun _ => rfl, ?_⟩
      intro hnn hlt
      exfalso
      rw [Int.tmod_eq_of_lt (by omega) hlt] at hm
      omega
    · rw [if_neg hm]
      refine ⟨rfl, fun heq => absurd heq hm, fun _ => ⟨rfl, rfl⟩, ?_, fun _ _ => rfl⟩
      intro heq
      exfalso
      rw [heq, Int.tmod_self] at hm
      exact hm rfl
  · intro hb
    rw [transitionToNextMode_break s t hb]
    exact ⟨rfl, rfl, rfl⟩

/-- A running work timer that has completed three cycles. -/
def cycle3WorkTimer : ActiveTimer :=
  { taskId := 1, timeLeft := 1, mode := TimerMode.work, cycleCount := 3, isPaused := false }

/-- C2 witness: under the default settings (cycles = 4) the fourth completed
work interval transitions to longBreak with timeLeft = 15*60. -/
theorem transitionToNextMode_spec_witness :
    (transitionToNextMode DEFAULT_SETTINGS cycle3WorkTimer).cycleCount =
      cycle3WorkTimer.cycleCount + 1 ∧
    (transitionToNextMode DEFAULT_SETTINGS cycle3WorkTimer).mode = TimerMode.longBreak ∧
    (transitionToNextMode DEFAULT_SETTINGS cycle3WorkTimer).timeLeft =
      DEFAULT_SETTINGS.longBreak * 60 := by
  have h := (transitionToNextMode_spec DEFAULT_SETTINGS cycle3WorkTimer (by decide)).1 rfl
  exact ⟨h.1, (h.2.1 (by decide)).1, (h.2.1 (by decide)).2⟩

/-! ### Claim C3 -/

/-- A paused work timer. -/
def pausedWorkTimer : ActiveTimer :=
  { taskId := 1, timeLeft := 5, mode := TimerMode.work, cycleCount := 0, isPaused := true }

/-- C3 counterexample: skip() on a paused timer performs a mode transition
whose result still has isPaused = true; the transition does not clear the
pause flag. -/
theorem handleSkip_keeps_paused_cex :
    handleSkip DEFAULT_SETTINGS (some pausedWorkTimer) =
      some (transitionToNextMode DEFAULT_SETTINGS pausedWorkTimer) ∧
    (transitionToNextMode DEFAULT_SETTINGS pausedWorkTimer).isPaused = true := by
  decide

/-- C3 amended: a mode transition carries isPaused over unchanged rather than
clearing it; consequently every transition that starts from an unpaused timer
(countdown ticks, which only fire while unpaused, and skip() on an unpaused
timer) produces isPaused = false, while skip() on a paused timer leaves the
new mode paused. -/
theorem transition_isPaused_spec (s : PomodoroSettings) (t : ActiveTimer) :
    (transitionToNextMode s t).isPaused = t.isPaused ∧
    (t.isPaused = false → ∀ t2, tick s (some t) = some t2 → t2.isPaused = false) ∧
    (t.isPaused = false → ∀ t2, handleSkip s (some t) = some t2 → t2.isPaused = false) := by
  refine ⟨transitionToNextMode_isPaused s t, ?_, ?_⟩
  · intro hp t2 ht2
    simp only [tick, hp] at ht2
    rw [if_neg (by simp)] at ht2
    by_cases hgt : t.timeLeft > 1
    · rw [if_pos hgt] at ht2
      cases ht2
      rfl
    · rw [if_neg hgt] at ht2
      cases ht2
      rw [transitionToNextMode_isPaused s t]
      exact hp
  · intro hp t2 ht2
    simp only [handleSkip] at ht2
    cases ht2
    rw [transitionToNextMode_isPaused s t]
    exact hp

/-- An unpaused ticking work timer and its successor after one tick. -/
def tickingTimer : ActiveTimer :=
  { taskId := 3, timeLeft := 5, mode := TimerMode.work, cycleCount := 0, isPaused := false }

/-- C3 witness at concrete inputs. -/
theorem transition_isPaused_spec_witness :
    (transitionToNextMode DEFAULT_SETTINGS pausedWorkTimer).isPaused =
      pausedWorkTimer.isPaused ∧
    ({ taskId := 3, timeLeft := 4, mode := TimerMode.work, cycleCount := 0,
       isPaused := false : ActiveTimer }).isPaused = false :=
  ⟨(transition_isPaused_spec DEFAULT_SETTINGS pausedWorkTimer).1,
   (transition_isPaused_spec DEFAULT_SETTINGS tickingTimer).2.1 rfl _ (by decide)⟩

/-! ### Claim C4 -/

/-- C4: ticking with no timer is a no-op; a tick on an unpaused timer with more
than one second left decrements timeLeft by exactly 1 and changes nothing else;
once timeLeft is down to its last second (or already 0 or below) the tick
performs the mode transition instead; and under a positive configuration a tick
never drives timeLeft to 0 or below. -/
theorem tick_spec (s : PomodoroSettings) :
    tick s none = none ∧
    ∀ t : ActiveTimer,
      (t.isPaused = true → tick s (some t) = some t) ∧
      (t.isPaused = false → 1 < t.timeLeft →
        tick s (some t) = some { t with timeLeft := t.timeLeft - 1 }) ∧
      (t.isPaused = false → t.timeLeft ≤ 1 →
        tick s (some t) = some (transitionToNextMode s t)) ∧
      (0 < s.work → 0 < s.shortBreak → 0 < s.longBreak → 1 ≤ t.timeLeft →
        ∀ t2, tick s (some t) = some t2 → 1 ≤ t2.timeLeft) := by
  refine ⟨rfl, ?_⟩
  intro t
  refine ⟨?_, ?_, ?_, ?_⟩
  · intro hp
    simp [tick, hp]
  · intro hp hgt
    simp [tick, hp, hgt]
  · intro hp hle
    simp only [tick, hp]
    rw [if_neg (by simp), if_neg (by omega)]
  · intro hw hsb hlb hpos t2 ht2
    exact applyTimerOp_timeLeft_pos s TimerOp.tick (some t) hw hsb hlb
      (fun u hu => by cases hu; exact hpos) t2 ht2

/-- A running unpaused timer with five seconds left, mid-countdown. -/
def countdownTimer : ActiveTimer :=
  { taskId := 4, timeLeft := 5, mode := TimerMode.work, cycleCount := 1, isPaused := false }

/-- C4 witness at concrete inputs. -/
theorem tick_spec_witness :
    tick DEFAULT_SETTINGS none = none ∧
    tick DEFAULT_SETTINGS (some countdownTimer) =
      some { countdownTimer with timeLeft := countdownTimer.timeLeft - 1 } ∧
    tick DEFAULT_SETTINGS (some { countdownTimer with timeLeft := 1 }) =
      some (transitionToNextMode DEFAULT_SETTINGS { countdownTimer with timeLeft := 1 }) :=
  ⟨(tick_spec DEFAULT_SETTINGS).1,
   ((tick_spec DEFAULT_SETTINGS).2 countdownTimer).2.1 rfl (by decide),
   ((tick_spec DEFAULT_SETTINGS).2 { countdownTimer with timeLeft := 1 }).2.2.1 rfl (by decide)⟩

/-! ### Claim C10 -/

/-- C10: in every timer state reachable from start() by ticks, pause/resume
toggles and skips, under positive work/shortBreak/longBreak durations, the
live timer's timeLeft is at least 1 — the countdown transitions on the tick
taken from timeLeft = 1 and never exposes 0 or a negative value. -/
theorem reachable_timeLeft_pos (s : PomodoroSettings)
    (hw : 0 < s.work) (hsb : 0 < s.shortBreak) (hlb : 0 < s.longBreak)
    (taskId : Nat) (ops : List TimerOp) (t : ActiveTimer)
    (h : runTimerOps s ops (handleStartTimer s taskId none) = some t) :
    1 ≤ t.timeLeft := by
  refine runTimerOps_timeLeft_pos s hw hsb hlb ops
    (handleStartTimer s taskId none) ?_ t h
  intro u hu
  simp only [handleStartTimer, Option.some.injEq] at hu
  subst hu
  simp
  omega

/-- The state reached from start under the default settings after one tick and
a skip: the skip lands in a short break with 5*60 seconds. -/
def afterTickSkipTimer : ActiveTimer :=
  { taskId := 9, timeLeft := 300, mode := TimerMode.shortBreak, cycleCount := 1,
    isPaused := false }

/-- C10 witness at a concrete reachable state. -/
theorem reachable_timeLeft_pos_witness : 1 ≤ afterTickSkipTimer.timeLeft :=
  reachable_timeLeft_pos DEFAULT_SETTINGS (by decide) (by decide) (by decide) 9
    [TimerOp.tick, TimerOp.skip] afterTickSkipTimer (by decide)

/-! ### Claim C5 -/

theorem toggleTask_id (taskId : Nat) (t : ParsedTask) : (toggleTask taskId t).id = t.id := by
  unfold toggleTask
  split <;> rfl

theorem applyStoreOp_ids (now : Nat) (op : StoreOp) (tasks : List ParsedTask)
    (hb : ∀ t ∈ tasks, t.id < now)
    (hnd : (tasks.map ParsedTask.id).Nodup) :
    ((applyStoreOp now op tasks).map ParsedTask.id).Nodup ∧
    (∀ t ∈ applyStoreOp now op tasks, t.id < now + 2) := by
  cases op with
  | accept c =>
    constructor
    · simp only [applyStoreOp, handleAccept, List.map_append, List.map_cons, List.map_nil]
      rw [List.nodup_append]
      refine ⟨hnd, List.nodup_singleton _, ?_⟩
      intro x hx hx'
      simp only [List.mem_map] at hx
      obtain ⟨t, ht, rfl⟩ := hx
      simp only [List.mem_singleton] at hx'
      exact absurd hx' (Nat.ne_of_lt (hb t ht))
    · intro t ht
      simp only [applyStoreOp, handleAccept, List.mem_append, List.mem_singleton] at ht
      rcases ht with ht | rfl
      · exact Nat.lt_of_lt_of_le (hb t ht) (by omega)
      · simp
  | syncNow d1 d2 =>
    have hsub : List.Sublist
        ((tasks.filter (fun t => t.source != TaskSource.google)).map ParsedTask.id)
        (tasks.map ParsedTask.id) := (List.filter_sublist tasks).map ParsedTask.id
    constructor
    · simp only [applyStoreOp, handleSyncNow, List.map_append, List.map_cons, List.map_nil]
      rw [List.nodup_append]
      refine ⟨hnd.sublist hsub, by simp, ?_⟩
      intro x hx hx'
      simp only [List.mem_map] at hx
      obtain ⟨t, ht, rfl⟩ := hx
      have hlt : t.id < now := hb t (List.mem_of_mem_filter ht)
      simp only [List.mem_cons, List.not_mem_nil, or_false] at hx'
      rcases hx' with h | h <;> omega
    · intro t ht
      simp only [applyStoreOp, handleSyncNow, List.mem_append, List.mem_cons,
        List.not_mem_nil, or_false] at ht
      rcases ht with ht | rfl | rfl
      · exact Nat.lt_of_lt_of_le (hb t (List.mem_of_mem_filter ht)) (by omega)
      · simp
      · simp
  | toggle i =>
    have hmap : (tasks.map (toggleTask i)).map ParsedTask.id = tasks.map ParsedTask.id := by
      rw [List.map_map]
      exact List.map_congr_left (fun t _ => toggleTask_id i t)
    constructor
    · simpa only [applyStoreOp, handleToggleComplete, hmap] using hnd
    · intro t ht
      simp only [applyStoreOp, handleToggleComplete, List.mem_map] at ht
      obtain ⟨u, hu, rfl⟩ := ht
      have := hb u hu
      rw [toggleTask_id]
      omega
  | disconnect =>
    constructor
    · exact hnd.sublist ((List.filter_sublist tasks).map ParsedTask.id)
    · intro t ht
      have := hb t (List.mem_of_mem_filter ht)
      omega

theorem runStoreOps_nodup (ops : List (Nat × StoreOp)) :
    ∀ lo tasks, (∀ t ∈ tasks, t.id < lo) → (tasks.map ParsedTask.id).Nodup →
      timesSeparated lo ops → ((runStoreOps ops tasks).map ParsedTask.id).Nodup := by
  induction ops with
  | nil =>
    intro lo tasks _ hnd _
    exact hnd
  | cons p rest ih =>
    obtain ⟨tm, op⟩ := p
    intro lo tasks hb hnd hsep
    obtain ⟨hle, hsep2⟩ := hsep
    rw [runStoreOps]
    have hb2 : ∀ t ∈ tasks, t.id < tm := fun t ht => Nat.lt_of_lt_of_le (hb t ht) hle
    obtain ⟨h1, h2⟩ := applyStoreOp_ids tm op tasks hb2 hnd
    exact ih (tm + 2) (applyStoreOp tm op tasks) h2 h1 hsep2

/-- A local candidate record awaiting acceptance. -/
def sampleCandidate : Candidate :=
  { taskName := "write report", date := { month := "July", day := 26, year := 2024 },
    time := none, category := "Work", priority := Priority.Medium }

/-- C5 counterexample: two handleAccept calls in the same millisecond (same
Date.now() value) insert two tasks with the same id: the insertion does not
assign an id fresh with respect to the store, it just takes the clock value. -/
theorem duplicate_id_cex :
    (handleAccept 5 sampleCandidate (handleAccept 5 sampleCandidate [])).map ParsedTask.id
      = [5, 5] ∧
    ¬ ((handleAccept 5 sampleCandidate
        (handleAccept 5 sampleCandidate [])).map ParsedTask.id).Nodup := by
  decide

/-- C5 amended: insertions take their ids from the wall clock (handleAccept
uses Date.now(), handleSyncNow uses Date.now() and Date.now()+1) with no
freshness check against the store; ids are pairwise distinct provided the
clock values of successive operations advance by at least 2 milliseconds, and
then no two tasks in the store ever share an id, regardless of local or
external origin. -/
theorem fresh_ids_of_separated_clocks (ops : List (Nat × StoreOp))
    (h : timesSeparated 0 ops) :
    ((runStoreOps ops []).map ParsedTask.id).Nodup :=
  runStoreOps_nodup ops 0 [] (by simp) (by simp) h

/-- A mixed operation sequence with separated clock values. -/
def sampleOps : List (Nat × StoreOp) :=
  [(10, StoreOp.accept sampleCandidate),
   (12, StoreOp.syncNow { month := "October", day := 12, year := 2026 }
                        { month := "October", day := 13, year := 2026 }),
   (15, StoreOp.accept sampleCandidate),
   (17, StoreOp.toggle 10),
   (19, StoreOp.disconnect)]

/-- C5 witness at a concrete operation sequence. -/
theorem fresh_ids_of_separated_clocks_witness :
    ((runStoreOps sampleOps []).map ParsedTask.id).Nodup :=
  fresh_ids_of_separated_clocks sampleOps (by decide)

/-! ### Claim C6 -/

/-- An attached focus cycle always refers to an existing active task. -/
def AttachedInvariant (tasks : List ParsedTask) (timer : Option ActiveTimer) : Prop :=
  ∀ tm, timer = some tm →
    ∃ t, t ∈ tasks ∧ t.id = tm.taskId ∧ t.status = TaskStatus.active

/-- A timer attached to task id 7 while no such task is in the store (reachable
by starting a timer on a google-origin task and then disconnecting the
calendar, which removes the task but not the timer). -/
def strayTimer : ActiveTimer :=
  { taskId := 7, timeLeft := 10, mode := TimerMode.work, cycleCount := 0, isPaused := false }

/-- C6 counterexample: toggleStatus(7) with no task of id 7 in the store is not
a no-op on the engine: the store is unchanged but the timer attached to id 7
is reset to absent. -/
theorem toggle_resets_engine_without_task_cex :
    (handleToggleComplete 7 ([] : List ParsedTask) (some strayTimer)).1 = [] ∧
    (handleToggleComplete 7 ([] : List ParsedTask) (some strayTimer)).2 = none ∧
    some strayTimer ≠ (none : Option ActiveTimer) := by
  decide

/-- C6 amended: toggleStatus(id) flips the status of every task with that id;
when no task has the id the store is unchanged, and the whole operation is a
no-op provided the engine is not attached to that id — the engine is reset
whenever its taskId equals the toggled id, whether or not such a task exists.
Toggling the task the focus cycle is attached to resets the engine to absent,
and toggleStatus preserves the invariant that an attached cycle refers to an
existing active task. -/
theorem handleToggleComplete_spec (taskId : Nat) (tasks : List ParsedTask)
    (timer : Option ActiveTimer) :
    (∀ t ∈ tasks, t.id = taskId → t.status = TaskStatus.active →
      { t with status := TaskStatus.completed } ∈ (handleToggleComplete taskId tasks timer).1) ∧
    (∀ t ∈ tasks, t.id = taskId → t.status = TaskStatus.completed →
      { t with status := TaskStatus.active } ∈ (handleToggleComplete taskId tasks timer).1) ∧
    ((∀ t ∈ tasks, t.id ≠ taskId) → (handleToggleComplete taskId tasks timer).1 = tasks) ∧
    ((∀ t ∈ tasks, t.id ≠ taskId) → (∀ tm, timer = some tm → tm.taskId ≠ taskId) →
      handleToggleComplete taskId tasks timer = (tasks, timer)) ∧
    (∀ tm, timer = some tm → tm.taskId = taskId →
      (handleToggleComplete taskId tasks timer).2 = none) ∧
    (AttachedInvariant tasks timer →
      AttachedInvariant (handleToggleComplete taskId tasks timer).1
        (handleToggleComplete taskId tasks timer).2) := by
  have hstore : ∀ (h : ∀ t ∈ tasks, t.id ≠ taskId),
      (handleToggleComplete taskId tasks timer).1 = tasks := by
    intro h
    simp only [handleToggleComplete]
    have : ∀ t ∈ tasks, toggleTask taskId t = t := by
      intro t ht
      simp [toggleTask, h t ht]
    rw [List.map_congr_left this]
    simp
  refine ⟨?_, ?_, hstore, ?_, ?_, ?_⟩
  · intro t ht hid hst
    simp only [handleToggleComplete]
    refine List.mem_map.mpr ⟨t, ht, ?_⟩
    simp [toggleTask, hid, hst]
  · intro t ht hid hst
    simp only [handleToggleComplete]
    refine List.mem_map.mpr ⟨t, ht, ?_⟩
    simp [toggleTask, hid, hst]
  · intro h htm
    refine Prod.ext (hstore h) ?_
    cases timer with
    | none => rfl
    | some tm =>
      simp only [handleToggleComplete]
      rw [if_neg (htm tm rfl)]
  · intro tm htm heq
    subst htm
    simp [handleToggleComplete, heq]
  · intro hinv tm2 htm2
    cases timer with
    | none => simp [handleToggleComplete] at htm2
    | some tm =>
      by_cases hcase : tm.taskId = taskId
      · simp [handleToggleComplete, hcase] at htm2
      · simp only [handleToggleComplete, if_neg hcase, Option.some.injEq] at htm2
        obtain ⟨t, ht, hid, hst⟩ := hinv tm rfl
        have hne : t.id ≠ taskId := by rw [hid]; exact hcase
        have hfix : toggleTask taskId t = t := by simp [toggleTask, hne]
        refine ⟨t, ?_, ?_, hst⟩
        · simpa only [handleToggleComplete, hfix] using
            List.mem_map_of_mem (toggleTask taskId) ht
        · rw [hid, htm2]

/-- The active task carrying id 7. -/
def taskSeven : ParsedTask :=
  { id := 7, taskName := "deep work", date := { month := "May", day := 5, year := 2025 },
    time := none, category := "Work", priority := Priority.High,
    status := TaskStatus.active, source := TaskSource.lucid }

/-- C6 witness at concrete inputs: toggling the attached task completes it and
resets the engine. -/
theorem handleToggleComplete_spec_witness :
    { taskSeven with status := TaskStatus.completed } ∈
      (handleToggleComplete 7 [taskSeven] (some strayTimer)).1 ∧
    (handleToggleComplete 7 [taskSeven] (some strayTimer)).2 = none :=
  ⟨(handleToggleComplete_spec 7 [taskSeven] (some strayTimer)).1 taskSeven
      (List.mem_singleton_self taskSeven) rfl rfl,
   (handleToggleComplete_spec 7 [taskSeven] (some strayTimer)).2.2.2.2.1 strayTimer rfl rfl⟩

/-! ### Claim C7 -/

theorem priorityLE_trans (a b c : ParsedTask) (hab : priorityLE a b = true)
    (hbc : priorityLE b c = true) : priorityLE a c = true := by
  simp only [priorityLE, Nat.ble_eq] at hab hbc ⊢
  omega

theorem priorityLE_total (a b : ParsedTask) : (priorityLE a b || priorityLE b a) = true := by
  simp only [priorityLE, Bool.or_eq_true, Nat.ble_eq]
  omega

/-- C7: sortedActiveTasks is a permutation of the active subset, every element
is active, it is sorted by the priority rank (High 1, Medium 2, Low 3) alone,
and it is stable: for each priority the subsequence of tasks of that priority
equals their subsequence of the store's active list, i.e. equal-priority tasks
keep their original insertion order (add appends and toggleStatus rewrites in
place, so store order is insertion order under any interleaving). -/
theorem sortedActiveTasks_spec (tasks : List ParsedTask) :
    List.Perm (sortedActiveTasks tasks) (activeTasks tasks) ∧
    List.Pairwise (fun a b => priorityOrder a.priority ≤ priorityOrder b.priority)
      (sortedActiveTasks tasks) ∧
    (∀ t ∈ sortedActiveTasks tasks, t.status = TaskStatus.active) ∧
    (∀ p : Priority,
      (sortedActiveTasks tasks).filter (fun t => t.priority == p) =
        (activeTasks tasks).filter (fun t => t.priority == p)) := by
  have hperm : List.Perm (sortedActiveTasks tasks) (activeTasks tasks) :=
    List.mergeSort_perm (activeTasks tasks) priorityLE
  refine ⟨hperm, ?_, ?_, ?_⟩
  · have h := @List.sorted_mergeSort ParsedTask priorityLE
      (fun a b c hab hbc => priorityLE_trans a b c hab hbc)
      (fun a b => priorityLE_total a b) (activeTasks tasks)
    exact h.imp (fun hab => by
      simpa only [priorityLE, Nat.ble_eq] using hab)
  · intro t ht
    have h2 : t ∈ activeTasks tasks := hperm.mem_iff.mp ht
    simp only [activeTasks, List.mem_filter, beq_iff_eq] at h2
    exact h2.2
  · intro p
    have hcP : ∀ a ∈ (activeTasks tasks).filter (fun t => t.priority == p),
        ∀ b ∈ (activeTasks tasks).filter (fun t => t.priority == p),
        priorityLE a b = true := by
      intro a ha b hb
      have hap := (List.mem_filter.mp ha).2
      have hbp := (List.mem_filter.mp hb).2
      simp only [beq_iff_eq] at hap hbp
      simp [priorityLE, hap, hbp]
    have hpair : ((activeTasks tasks).filter (fun t => t.priority == p)).Pairwise
        (fun a b => priorityLE a b = true) :=
      List.pairwise_of_forall_mem_list hcP
    have hsubl : List.Sublist ((activeTasks tasks).filter (fun t => t.priority == p))
        (sortedActiveTasks tasks) :=
      List.sublist_mergeSort
        (fun a b c hab hbc => priorityLE_trans a b c hab hbc)
        (fun a b => priorityLE_total a b) hpair (List.filter_sublist _)
    have h1 := hsubl.filter (fun t => t.priority == p)
    have h2 : ((activeTasks tasks).filter (fun t => t.priority == p)).filter
        (fun t => t.priority == p) = (activeTasks tasks).filter (fun t => t.priority == p) :=
      List.filter_eq_self.mpr (fun a ha => (List.mem_filter.mp ha).2)
    rw [h2] at h1
    have h3 : List.Perm ((sortedActiveTasks tasks).filter (fun t => t.priority == p))
        ((activeTasks tasks).filter (fun t => t.priority == p)) :=
      hperm.filter (fun t => t.priority == p)
    exact (h1.eq_of_length h3.length_eq.symm).symm

/-! ### Claim C8 -/

theorem monthNames_findIdx (m : Nat) (h1 : 1 ≤ m) (h2 : m ≤ 12) :
    monthNames.findIdx? (fun s => s == monthName m) = some (m - 1) := by
  interval_cases m <;> decide

theorem hour24_roundtrip (h m : Nat) (hh : h ≤ 23) :
    hour24 { hour12 := if h % 12 = 0 then 12 else h % 12, minute := m,
             ampm := if h < 12 then "AM" else "PM" } = h := by
  simp only [hour24]
  by_cases hlt : h < 12
  · rw [if_pos hlt]
    rw [if_pos rfl]
    by_cases hz : h % 12 = 0
    · rw [if_pos hz, if_pos rfl]
      omega
    · rw [if_neg hz, if_neg (by omega)]
      omega
  · rw [if_neg hlt]
    rw [if_neg (by decide)]
    by_cases hz : h % 12 = 0
    · rw [if_pos hz, if_pos rfl]
      omega
    · rw [if_neg hz, if_neg (by omega)]
      omega

/-- The timed timestamp July 26, 2024, 2:30 PM, as toTimestamp itself
produces it. -/
def meetingTimestamp : Timestamp :=
  { year := 2024, month := 7, day := 26, hour := 14, minute := 30, second := 0 }

/-- C8 counterexample: meetingTimestamp is produced by toTimestamp, yet with
isAllDay = true the round trip through fromTimestamp and toTimestamp lands on
midnight of the same day, which differs from the original even at minute
precision. -/
theorem roundTrip_allday_cex :
    toTimestamp { month := "July", day := 26, year := 2024 }
        (some { hour12 := 2, minute := 30, ampm := "PM" }) = some meetingTimestamp ∧
    toTimestamp (fromTimestamp meetingTimestamp true).1
        (fromTimestamp meetingTimestamp true).2
      = some { year := 2024, month := 7, day := 26, hour := 0, minute := 0, second := 0 } ∧
    toTimestamp (fromTimestamp meetingTimestamp true).1
        (fromTimestamp meetingTimestamp true).2
      ≠ some (truncToMinute meetingTimestamp) := by
  decide

/-- C8 amended: for every representable timestamp, fromTimestamp with
isAllDay = false followed by toTimestamp returns exactly the timestamp
truncated to the minute (seconds are discarded by the textual form); with
isAllDay = true the time text is absent and the round trip returns the
timestamp's date at midnight, which agrees with the original to the minute
only when its clock component is midnight. -/
theorem roundTrip_spec (ts : Timestamp) (h : ValidTimestamp ts) :
    toTimestamp (fromTimestamp ts false).1 (fromTimestamp ts false).2
      = some (truncToMinute ts) ∧
    toTimestamp (fromTimestamp ts true).1 (fromTimestamp ts true).2
      = some (dateAtMidnight ts) := by
  obtain ⟨hm1, hm2, hd1, hd2, hh, hmin⟩ := h
  have hmonth : ts.month - 1 + 1 = ts.month := by omega
  have hfind := monthNames_findIdx ts.month hm1 hm2
  constructor
  · simp only [fromTimestamp, toTimestamp, hfind, hmonth]
    rw [if_pos ⟨hd1, hd2⟩]
    simp only [Bool.false_eq_true, if_false]
    rw [if_pos ?_]
    · rw [hour24_roundtrip ts.hour ts.minute hh]
      simp [truncToMinute]
    · refine ⟨?_, hmin, ?_⟩
      · by_cases hz : ts.hour % 12 = 0
        · simp [hz]
        · simp only [if_neg hz]
          omega
      · by_cases hlt : ts.hour < 12 <;> simp [hlt]
  · simp only [fromTimestamp, toTimestamp, hfind, hmonth]
    rw [if_pos ⟨hd1, hd2⟩]
    simp [dateAtMidnight]

/-- C8 witness at a concrete timed timestamp. -/
theorem roundTrip_spec_witness :
    toTimestamp (fromTimestamp meetingTimestamp false).1
        (fromTimestamp meetingTimestamp false).2
      = some (truncToMinute meetingTimestamp) :=
  (roundTrip_spec meetingTimestamp (by decide)).1

/-! ### Claim C9 -/

/-- C9: handleSettingsChange is total (no input is a fatal error); an input
with no parsable integer (parseInt NaN) or parsing to a value ≤ 0 leaves the
whole settings record unchanged, and an input parsing to a positive integer
sets exactly the submitted field to that value, leaving every other field at
its prior value. -/
theorem handleSettingsChange_spec (s : PomodoroSettings) (f : SettingsField)
    (value : String) :
    (parseIntTen value = none → handleSettingsChange s f value = s) ∧
    (∀ n : Int, parseIntTen value = some n → n ≤ 0 →
      handleSettingsChange s f value = s) ∧
    (∀ n : Int, parseIntTen value = some n → 0 < n →
      handleSettingsChange s f value = setField s f n ∧
      getField (handleSettingsChange s f value) f = n ∧
      ∀ g : SettingsField, g ≠ f →
        getField (handleSettingsChange s f value) g = getField s g) := by
  refine ⟨?_, ?_, ?_⟩
  · intro h
    simp [handleSettingsChange, h]
  · intro n h hle
    simp only [handleSettingsChange, h]
    rw [if_neg (by omega)]
  · intro n h hgt
    have heq : handleSettingsChange s f value = setField s f n := by
      simp only [handleSettingsChange, h]
      rw [if_pos (by omega)]
    refine ⟨heq, ?_, ?_⟩
    · rw [heq]
      cases f <;> simp [setField, getField]
    · intro g hg
      rw [heq]
      cases f <;> cases g <;>
        first
        | exact absurd rfl hg
        | simp [setField, getField]

/-- C9 witness at concrete inputs: a non-numeric input and "0" are ignored,
"30" updates the work duration. -/
theorem handleSettingsChange_spec_witness :
    handleSettingsChange DEFAULT_SETTINGS SettingsField.work "abc" = DEFAULT_SETTINGS ∧
    handleSettingsChange DEFAULT_SETTINGS SettingsField.work "0" = DEFAULT_SETTINGS ∧
    handleSettingsChange DEFAULT_SETTINGS SettingsField.work "30" =
      setField DEFAULT_SETTINGS SettingsField.work 30 :=
  ⟨(handleSettingsChange_spec DEFAULT_SETTINGS SettingsField.work "abc").1 (by decide),
   (handleSettingsChange_spec DEFAULT_SETTINGS SettingsField.work "0").2.1 0
     (by decide) (by decide),
   ((handleSettingsChange_spec DEFAULT_SETTINGS SettingsField.work "30").2.2 30
     (by decide) (by decide)).1⟩
